import Mathlib

/-!
Verification development for the nephe cloud-provider integration plane.

Shallow embedding of the credential-management, account-registry,
inventory and security-group naming code of the repository (Go) into
Lean 4.  Effectful steps (Kubernetes client fetches, base64 decoding,
JSON unmarshalling, cloud SDK queries) are passed in as explicit
function or result parameters; every other line mirrors the Go source.
-/

namespace Nephe

/-! ## Credential payloads (apis/crd/v1alpha1)

`AwsAccountCredential` and `AzureAccountCredential` are the JSON
payloads stored (base64-encoded) in the referenced Kubernetes secret.
-/

structure AwsAccountCredential where
  accessKeyId : String
  accessKeySecret : String
  sessionToken : String
  roleArn : String
  externalId : String
  deriving Repr, DecidableEq

structure AzureAccountCredential where
  subscriptionId : String
  tenantId : String
  clientId : String
  clientKey : String
  deriving Repr, DecidableEq

/-- The zero value of `AzureAccountCredential` (Go: `&crdv1alpha1.AzureAccountCredential{}`). -/
def AzureAccountCredential.zero : AzureAccountCredential :=
  ⟨"", "", "", ""⟩

/-- Go's `strings.TrimSpace`: drop leading and trailing whitespace.
Implemented over the character list so that it evaluates by kernel
reduction. -/
def trimSpace (s : String) : String :=
  ⟨(((s.data.dropWhile Char.isWhitespace).reverse.dropWhile
      Char.isWhitespace).reverse)⟩

/-- `internal.AccountCredentialsDefault` (plugins/internal/cloud_common.go). -/
def AccountCredentialsDefault : String := "default"

namespace aws

/-- `awsAccountConfig` from the AWS plugin: the credential payload plus
the (whitespace-trimmed) region and endpoint from the provider config. -/
structure awsAccountConfig where
  cred : AwsAccountCredential
  region : String
  endpoint : String
  deriving Repr, DecidableEq

/-- `compareAccountCredentials` of the AWS plugin: reports `true` iff any
of the seven stored fields differs under `strings.Compare` (raw string
comparison, no trimming).  Logging is dropped; the boolean mirrors the
accumulation of `credsChanged`. -/
def compareAccountCredentials (existing new : awsAccountConfig) : Bool :=
  (existing.cred.accessKeyId != new.cred.accessKeyId) ||
  (existing.cred.accessKeySecret != new.cred.accessKeySecret) ||
  (existing.cred.sessionToken != new.cred.sessionToken) ||
  (existing.cred.roleArn != new.cred.roleArn) ||
  (existing.cred.externalId != new.cred.externalId) ||
  (existing.region != new.region) ||
  (existing.endpoint != new.endpoint)

/-- `extractSecret` of the AWS plugin.  The effectful stages are
parameters: `getOk` is whether the `client.Get` of the Secret object
succeeded, `dataOk` whether `u.Object["data"]` is a string map,
`keyVal` the string stored under the secret key (the Go code asserts
its presence unchecked), `b64` the base64 decoder and `um` the JSON
unmarshaller (`none` = failure).  Note: after a successful unmarshal
the credential is returned with NO error — the AWS plugin performs no
emptiness check on the decoded fields. -/
def extractSecret (getOk dataOk : Bool) (keyVal : String)
    (b64 : String → Option String)
    (um : String → Option AwsAccountCredential) :
    Except String AwsAccountCredential :=
  if !getOk then .error "error fetching Secret"
  else if !dataOk then .error "error missing Secret config data"
  else
    match b64 keyVal with
    | none => .error "error decoding Secret"
    | some decoded =>
      match um decoded with
      | none => .error "error unmarshalling credentials"
      | some cred => .ok cred

/-- `setAccountCredentials` of the AWS plugin: on secret-resolution
failure it returns `(nil, err)` — no account configuration at all; on
success it builds the config with `strings.TrimSpace`d region and
endpoint. -/
def setAccountCredentials (getOk dataOk : Bool) (keyVal : String)
    (b64 : String → Option String)
    (um : String → Option AwsAccountCredential)
    (region endpoint : String) :
    Option awsAccountConfig × Option String :=
  match extractSecret getOk dataOk keyVal b64 um with
  | .error e => (none, some e)
  | .ok accCred => (some ⟨accCred, trimSpace region, trimSpace endpoint⟩, none)

end aws

namespace azure

/-- `azureAccountConfig` from the Azure plugin: the credential payload
plus the (whitespace-trimmed) region. -/
structure azureAccountConfig where
  cred : AzureAccountCredential
  region : String
  deriving Repr, DecidableEq

/-- `compareAccountCredentials` of the Azure plugin: reports `true` iff
any of the five stored fields differs under `strings.Compare` (raw
string comparison, no trimming). -/
def compareAccountCredentials (existing new : azureAccountConfig) : Bool :=
  (existing.cred.subscriptionId != new.cred.subscriptionId) ||
  (existing.cred.clientId != new.cred.clientId) ||
  (existing.cred.tenantId != new.cred.tenantId) ||
  (existing.cred.clientKey != new.cred.clientKey) ||
  (existing.region != new.region)

/-- `extractSecret` of the Azure plugin.  Same staging as the AWS
version, except: the secret key lookup is checked (`keyVal = none`
models a missing/non-string key), the function always returns a
credential value alongside the error (Go returns the zero-valued
`cred` on early failures), and after a successful unmarshal any empty
required field is rejected with an error. -/
def extractSecret (getOk dataOk : Bool) (keyVal : Option String)
    (b64 : String → Option String)
    (um : String → Option AzureAccountCredential) :
    AzureAccountCredential × Option String :=
  if !getOk then (.zero, some "failed to get Secret object")
  else if !dataOk then (.zero, some "failed to get Secret data")
  else
    match keyVal with
    | none => (.zero, some "failed to get Secret key")
    | some key =>
      match b64 key with
      | none => (.zero, some "failed to decode Secret key")
      | some decoded =>
        match um decoded with
        | none => (.zero, some "failed to unmarshall Secret credentials")
        | some cred =>
          if cred.subscriptionId = "" || cred.tenantId = "" ||
              cred.clientId = "" || cred.clientKey = "" then
            (cred, some "Secret credentials cannot be empty")
          else
            (cred, none)

/-- `setAccountCredentials` of the Azure plugin: builds the config with
the trimmed 0th region; on secret-resolution failure it overwrites all
four credential fields with the sentinel `"default"` and still returns
the (non-nil) error. -/
def setAccountCredentials (getOk dataOk : Bool) (keyVal : Option String)
    (b64 : String → Option String)
    (um : String → Option AzureAccountCredential)
    (region0 : String) :
    azureAccountConfig × Option String :=
  let res := extractSecret getOk dataOk keyVal b64 um
  let accCred :=
    match res.2 with
    | some _ => (⟨AccountCredentialsDefault, AccountCredentialsDefault,
                  AccountCredentialsDefault, AccountCredentialsDefault⟩ :
                  AzureAccountCredential)
    | none => res.1
  (⟨accCred, trimSpace region0⟩, res.2)

end azure

/-! ## Common plugin framework registry (plugins/internal/cloud_common.go)

The `cloudCommon` struct holds `accountConfigs`, a map from the account
`NamespacedName` to its config.  We model the map as a function
`NamespacedName → Option Config` (Go map semantics), and the two
cloud-specific constructors `newCloudAccountConfig` /
`updateCloudAccountConfig` (whose bodies live in a file not cited
here) as explicit function parameters: creation may fail and yield no
config; update mutates the existing config in place and may
additionally report an error (Go returns the error while the registry
entry — the same pointer — stays). -/

namespace internal

structure NamespacedName where
  namespc : String
  name : String
  deriving Repr, DecidableEq

/-- The `accountConfigs` registry of `cloudCommon`, as a map. -/
abbrev Registry (Config : Type) := NamespacedName → Option Config

/-- `cloudCommon.AddCloudAccount`: if an entry with the key already
exists, forward as an in-place update of the existing config (the map
itself gains no new entry; on error the entry stays); otherwise create
a fresh config and insert it only when creation succeeded. -/
def AddCloudAccount {Config Credentials : Type}
    (newCfg : Credentials → Except String Config)
    (updCfg : Config → Credentials → Config × Option String)
    (reg : Registry Config) (namespacedName : NamespacedName)
    (credentials : Credentials) :
    Registry Config × Option String :=
  match reg namespacedName with
  | some existingConfig =>
    let upd := updCfg existingConfig credentials
    (fun k => if k = namespacedName then some upd.1 else reg k, upd.2)
  | none =>
    match newCfg credentials with
    | .error e => (reg, some e)
    | .ok config =>
      (fun k => if k = namespacedName then some config else reg k, none)

/-- `cloudCommon.RemoveCloudAccount`: looks the key up first and
returns with the registry untouched when it is absent; otherwise
deletes the entry. -/
def RemoveCloudAccount {Config : Type} (reg : Registry Config)
    (namespacedName : NamespacedName) : Registry Config :=
  match reg namespacedName with
  | none => reg
  | some _ => fun k => if k = namespacedName then none else reg k

end internal

/-! ## Cloud resource naming and rule hashing (cloudprovider/cloudresource/cloudresource.go) -/

namespace cloudresource

/-- `GetControllerAddressGroupPrefix`: `ControllerPrefix + "-ag-"`.
The Go code stores the process-wide `ControllerPrefix` in a package
variable; we pass it explicitly. -/
def GetControllerAddressGroupPfx (controllerPfx : String) : String :=
  controllerPfx ++ "-ag-"

/-- `GetControllerAppliedToPrefix`: `ControllerPrefix + "-at-"`. -/
def GetControllerAppliedToPfx (controllerPfx : String) : String :=
  controllerPfx ++ "-at-"

structure CloudResourceID where
  Name : String
  Vpc : String
  deriving Repr, DecidableEq

/-- `CloudResourceID.GetCloudName`: address-group prefixed lowercased
name for membership-only groups, applied-to prefixed otherwise. -/
def CloudResourceID.GetCloudName (controllerPfx : String)
    (c : CloudResourceID) (membershipOnly : Bool) : String :=
  if membershipOnly then
    GetControllerAddressGroupPfx controllerPfx ++ c.Name.toLower
  else
    GetControllerAppliedToPfx controllerPfx ++ c.Name.toLower

/-- The `Rule` interface: either an `IngressRule` or an `EgressRule`.
IP nets and security-group references are carried as rendered strings;
`AppliedToGroup` as a key list. -/
inductive SgRule where
  | ingress (fromPort : Option Int) (fromSrcIP : List String)
      (fromSecurityGroups : List CloudResourceID) (protocol : Option Int)
      (appliedToGroup : List String)
  | egress (toPort : Option Int) (toDstIP : List String)
      (toSecurityGroups : List CloudResourceID) (protocol : Option Int)
      (appliedToGroup : List String)
  deriving Repr, DecidableEq

/-- `CloudRule`.  In Go, `Hash` and `NpNamespacedName` carry the JSON
tag `json:"-"` and are excluded from serialization. -/
structure CloudRule where
  Hash : String
  Rule : SgRule
  NpNamespacedName : String
  AppliedToGrp : String
  deriving Repr, DecidableEq

/-- Rendering of an optional int field, `null` for a nil pointer. -/
def renderOptInt : Option Int → String
  | none => "null"
  | some n => toString n

/-- Rendering of a string list as a JSON array. -/
def renderStrList (xs : List String) : String :=
  "[" ++ String.intercalate "," xs ++ "]"

/-- Rendering of a `CloudResourceID` list. -/
def renderSgList (xs : List CloudResourceID) : String :=
  "[" ++ String.intercalate "," (xs.map fun c => c.Name ++ "/" ++ c.Vpc) ++ "]"

/-- JSON serialization of a `Rule` value. -/
def renderSgRule : SgRule → String
  | .ingress fromPort fromSrcIP fromSecurityGroups protocol appliedToGroup =>
    "\x7b\"FromPort\":" ++ renderOptInt fromPort ++
    ",\"FromSrcIP\":" ++ renderStrList fromSrcIP ++
    ",\"FromSecurityGroups\":" ++ renderSgList fromSecurityGroups ++
    ",\"Protocol\":" ++ renderOptInt protocol ++
    ",\"AppliedToGroup\":" ++ renderStrList appliedToGroup ++ "\x7d"
  | .egress toPort toDstIP toSecurityGroups protocol appliedToGroup =>
    "\x7b\"ToPort\":" ++ renderOptInt toPort ++
    ",\"ToDstIP\":" ++ renderStrList toDstIP ++
    ",\"ToSecurityGroups\":" ++ renderSgList toSecurityGroups ++
    ",\"Protocol\":" ++ renderOptInt protocol ++
    ",\"AppliedToGroup\":" ++ renderStrList appliedToGroup ++ "\x7d"

/-- `json.Marshal(c)` for a `CloudRule`: by the `json:"-"` tags only
the `Rule` and `AppliedToGrp` fields are serialized. -/
def marshalCloudRule (c : CloudRule) : String :=
  "\x7b\"Rule\":" ++ renderSgRule c.Rule ++
  ",\"AppliedToGrp\":\"" ++ c.AppliedToGrp ++ "\"\x7d"

/-- `CloudRule.GetHash`: SHA-1 of the JSON serialization, hex encoded.
The SHA-1 + hex step is an arbitrary function of the marshalled bytes;
we pass it as the parameter `sha1hex`. -/
def CloudRule.GetHash (sha1hex : String → String) (c : CloudRule) : String :=
  sha1hex (marshalCloudRule c)

end cloudresource

/-! ## Azure compute service (plugins/azure/azure_compute.go)

The cloud SDK calls (`vnetAPIClient.listAllComplete`, the Resource
Graph query behind `getVirtualMachineTable`) are parameters; the
filter compilation, inventory bookkeeping and snapshot swap mirror the
source. -/

namespace azure

/-- Properties of one vnet peering connection (the fields the source
reads: `RemoteVirtualNetwork.ID` and `RemoteAddressSpace.AddressPrefixes`). -/
structure VnetPeeringProps where
  remoteVnetID : Option String
  remoteAddressPrefixes : List String
  deriving Repr, DecidableEq

structure VnetPeering where
  properties : Option VnetPeeringProps
  deriving Repr, DecidableEq

/-- Vnet properties as read by `buildMapVpcPeers`. -/
structure VnetProps where
  virtualNetworkPeerings : List VnetPeering
  addressPrefixes : List String
  deriving Repr, DecidableEq

/-- `armnetwork.VirtualNetwork` restricted to the fields this package
dereferences (`ID`, `Properties`; `Location` is used by the read side
only). -/
structure VirtualNetwork where
  id : String
  location : String
  properties : Option VnetProps
  deriving Repr, DecidableEq

/-- One row of the Resource-Graph `virtualMachineTable` restricted to
the columns `DoResourceInventory` reads (`ID`, `VnetID`; the remaining
columns flow through the snapshot untouched). -/
structure virtualMachineTable where
  id : String
  vnetID : String
  deriving Repr, DecidableEq

/-- `computeResourcesCacheSnapshot`.  The Go maps become an association
list keyed by the lowercased instance id, a vnet-ID membership list
and a peers function. -/
structure computeResourcesCacheSnapshot where
  virtualMachines : List (String × virtualMachineTable)
  vnets : List VirtualNetwork
  vnetIDs : List String
  vnetPeers : String → List (List String)

/-- `buildMapVpcPeers`: for every peering connection of every vnet,
append the `[requesterID, destinationID, sourceID]` triple under the
lowercased accepter vnet id; ids and prefixes are lowercased, missing
pieces stay `""` (Go zero value). -/
def buildMapVpcPeers (results : List VirtualNetwork) :
    String → List (List String) :=
  results.foldl
    (fun vpcPeers result =>
      match result.properties with
      | none => vpcPeers
      | some properties =>
        properties.virtualNetworkPeerings.foldl
          (fun vpcPeers peerConn =>
            let accepterID := result.id.toLower
            let requesterID :=
              match peerConn.properties with
              | some pp =>
                match pp.remoteVnetID with
                | some rid => rid.toLower
                | none => ""
              | none => ""
            let destinationID :=
              match peerConn.properties with
              | some pp =>
                match pp.remoteAddressPrefixes with
                | p :: _ => p.toLower
                | [] => ""
              | none => ""
            let sourceID :=
              match properties.addressPrefixes with
              | p :: _ => p.toLower
              | [] => ""
            fun k =>
              if k = accepterID then
                vpcPeers accepterID ++ [[requesterID, destinationID, sourceID]]
              else vpcPeers k)
          vpcPeers)
    (fun _ => [])

/-- Modelled from the spec: the KQL text of
`getVMsBySubscriptionIDsAndTenantIDsAndLocationsMatchQuery`, which
lives in the Azure query-template file, not among the sources here.
Per the spec it is "a Resource-Graph KQL string constrained to the
account's subscription, tenant, and region". -/
def mkMatchEverythingQuery (subscriptionIDs tenantIDs locations : List String) :
    String :=
  "Resources | where type =~ 'microsoft.compute/virtualmachines'" ++
    " | where subscriptionId in " ++ cloudresource.renderStrList subscriptionIDs ++
    " | where tenantId in " ++ cloudresource.renderStrList tenantIDs ++
    " | where location in " ++ cloudresource.renderStrList locations

/-- Modelled from the spec: the query builder as called by
`getComputeResourceFilters`, with the fallible signature of the Go
template execution; the spec-modelled builder always succeeds. -/
def matchEverythingQuery (subscriptionIDs tenantIDs locations : List String) :
    Except Unit String :=
  .ok (mkMatchEverythingQuery subscriptionIDs tenantIDs locations)

/-- The selector loop of `getComputeResourceFilters`: walk the
installed selectors, accumulating their filter lists; on the first
selector holding an empty filter list return the single
match-everything query for the account's subscription/tenant/region
(dropping everything accumulated so far), or `none` if building that
query fails. -/
def getComputeResourceFiltersLoop
    (buildQuery : List String → List String → List String → Except Unit String)
    (subscriptionID tenantID region : String) :
    List (String × List String) → List String → Option (List String)
  | [], allFilters => some allFilters
  | (_, filters) :: rest, allFilters =>
    if filters.isEmpty then
      match buildQuery [subscriptionID] [tenantID] [region] with
      | .error _ => none
      | .ok queryStr => some [queryStr]
    else getComputeResourceFiltersLoop buildQuery subscriptionID tenantID region
      rest (allFilters ++ filters)

/-- `getComputeResourceFilters`.  `computeFilters` (Go: a map from
selector key to query list) is an association list in one iteration
order.  Returns `none` when the map is empty (Go `nil, false`). -/
def getComputeResourceFilters
    (buildQuery : List String → List String → List String → Except Unit String)
    (subscriptionID tenantID region : String)
    (computeFilters : List (String × List String)) : Option (List String) :=
  if computeFilters.isEmpty then none
  else getComputeResourceFiltersLoop buildQuery subscriptionID tenantID region
    computeFilters []

/-- The query loop of `getVirtualMachines`: fetch the rows of each
compiled query, concatenating them; the first fetch error aborts. -/
def getVirtualMachinesLoop
    (fetch : String → Except String (List virtualMachineTable)) :
    List String → List virtualMachineTable →
    Except String (List virtualMachineTable)
  | [], virtualMachines => .ok virtualMachines
  | filter :: rest, virtualMachines =>
    match fetch filter with
    | .error e => .error e
    | .ok rows => getVirtualMachinesLoop fetch rest (virtualMachines ++ rows)

/-- `getVirtualMachines`.  `fetch` stands for `getVirtualMachineTable`
applied to the resource-graph client and the account's subscription
list.  With no filters configured the function returns `nil, nil`
without consulting the cloud. -/
def getVirtualMachines (fetch : String → Except String (List virtualMachineTable))
    (buildQuery : List String → List String → List String → Except Unit String)
    (subscriptionID tenantID region : String)
    (computeFilters : List (String × List String)) :
    Except String (List virtualMachineTable) :=
  match getComputeResourceFilters buildQuery subscriptionID tenantID region
      computeFilters with
  | none => .ok []
  | some filters => getVirtualMachinesLoop fetch filters []

/-- The snapshot built by a fully successful poll: vm rows keyed by
lowercased id, the vnet-ID set of vnets containing a fetched vm, and
the peering map. -/
def buildInventorySnapshot (vnets : List VirtualNetwork)
    (virtualMachines : List virtualMachineTable) :
    computeResourcesCacheSnapshot :=
  { virtualMachines := virtualMachines.map fun vm => (vm.id.toLower, vm)
    vnets := vnets
    vnetIDs := virtualMachines.map (·.vnetID)
    vnetPeers := buildMapVpcPeers vnets }

/-- `DoResourceInventory`: fetch vnets, then the virtual machines; on
either error return it with the cached snapshot untouched; only when
both succeed swap in the freshly built snapshot. -/
def DoResourceInventory (getVpcsR : Except String (List VirtualNetwork))
    (fetch : String → Except String (List virtualMachineTable))
    (buildQuery : List String → List String → List String → Except Unit String)
    (subscriptionID tenantID region : String)
    (computeFilters : List (String × List String))
    (cache : Option computeResourcesCacheSnapshot) :
    Option computeResourcesCacheSnapshot × Option String :=
  match getVpcsR with
  | .error e => (cache, some e)
  | .ok vnets =>
    match getVirtualMachines fetch buildQuery subscriptionID tenantID region
        computeFilters with
    | .error e => (cache, some e)
    | .ok virtualMachines =>
      (some (buildInventorySnapshot vnets virtualMachines), none)

end azure

/-! ## Security-group rule update (spec §4.3.4)

Modelled from the spec: the provider implementations of
`UpdateSecurityGroupRules` (azure_security.go / aws counterpart) are
not among the sources; only the `CloudInterface` declaration
(cloudapi/common/cloud.go) and the Ginkgo tests exercising it are.
Per the spec, the call computes a cloud rule per owned policy rule
"with description encoding (policy-name, policy-namespace)", and "a
rule without a policy-name description is rejected with an error — the
system refuses to write rules it could not later identify as its own";
the update is transactional (all-or-nothing per group). -/

namespace sync

/-- Modelled from the spec: the description generated for one rule —
fails (`none`) when the rule carries no originating policy
namespaced-name. -/
def ruleDescription (r : cloudresource.CloudRule) : Option String :=
  if r.NpNamespacedName = "" then none
  else some ("Name:" ++ r.NpNamespacedName ++ ", AppliedTo:" ++ r.AppliedToGrp)

/-- Modelled from the spec: descriptions for the whole rule list, first
failure wins. -/
def ruleDescriptions : List cloudresource.CloudRule → Option (List String)
  | [] => some []
  | r :: rest =>
    match ruleDescription r with
    | none => none
    | some d =>
      match ruleDescriptions rest with
      | none => none
      | some ds => some (d :: ds)

/-- Modelled from the spec: `UpdateSecurityGroupRules` over the pushed
rule state of one group.  All descriptions are generated before
anything is written; if any rule lacks a policy namespaced-name the
call returns an error and the cloud rule set is left exactly as it
was; otherwise the full intended rule set is pushed in one call. -/
def UpdateSecurityGroupRules (cloudRules : List String)
    (allRules : List cloudresource.CloudRule) :
    List String × Option String :=
  match ruleDescriptions allRules with
  | none => (cloudRules, some "rule without policy namespaced-name")
  | some ds => (ds, none)

end sync

end Nephe

namespace Nephe

/-! ## Theorems -/

/-- Existing AWS account config whose credentials were decoded from a
secret holding `accessKeyId = "key"`. -/
def c1ExistingConfig : aws.awsAccountConfig :=
  ⟨⟨"key", "keySecret", "", "", ""⟩, "us-east-1", ""⟩

/-- New AWS account config decoded from a secret holding
`accessKeyId = "key "` (trailing space), all other fields unchanged. -/
def c1NewConfig : aws.awsAccountConfig :=
  ⟨⟨"key ", "keySecret", "", "", ""⟩, "us-east-1", ""⟩

/-- C1 counterexample: two AWS account configurations — both produced
by `setAccountCredentials` from secrets whose `accessKeyId` differs
only by a trailing space — agree on every whitespace-trimmed
credential field, yet `compareAccountCredentials` reports a credential
change.  The comparator compares raw strings and never trims, so the
claim "unchanged whenever all trimmed fields agree" is false. -/
theorem c1_whitespace_counterexample :
    (aws.setAccountCredentials true true "payload" some
        (fun _ => some ⟨"key", "keySecret", "", "", ""⟩) "us-east-1" "").1 =
      some c1ExistingConfig ∧
    (aws.setAccountCredentials true true "payload" some
        (fun _ => some ⟨"key ", "keySecret", "", "", ""⟩) "us-east-1" "").1 =
      some c1NewConfig ∧
    trimSpace c1ExistingConfig.cred.accessKeyId = trimSpace c1NewConfig.cred.accessKeyId ∧
    c1ExistingConfig.cred.accessKeySecret = c1NewConfig.cred.accessKeySecret ∧
    c1ExistingConfig.cred.sessionToken = c1NewConfig.cred.sessionToken ∧
    c1ExistingConfig.cred.roleArn = c1NewConfig.cred.roleArn ∧
    c1ExistingConfig.cred.externalId = c1NewConfig.cred.externalId ∧
    c1ExistingConfig.region = c1NewConfig.region ∧
    c1ExistingConfig.endpoint = c1NewConfig.endpoint ∧
    aws.compareAccountCredentials c1ExistingConfig c1NewConfig = true := by
  refine ⟨?_, ?_, ?_, rfl, rfl, rfl, rfl, rfl, rfl, ?_⟩ <;> decide

/-- C1 (amended): for both plugins the credential comparator reports a
change iff at least one stored field differs under raw string
comparison; no trimming happens at comparison time (only region and
endpoint were trimmed once, by `setAccountCredentials`, when the
configurations were built). -/
theorem c1_comparator_iff_raw_field_differs (e n : aws.awsAccountConfig)
    (e2 n2 : azure.azureAccountConfig) :
    (aws.compareAccountCredentials e n = true ↔
      (e.cred.accessKeyId ≠ n.cred.accessKeyId ∨
       e.cred.accessKeySecret ≠ n.cred.accessKeySecret ∨
       e.cred.sessionToken ≠ n.cred.sessionToken ∨
       e.cred.roleArn ≠ n.cred.roleArn ∨
       e.cred.externalId ≠ n.cred.externalId ∨
       e.region ≠ n.region ∨
       e.endpoint ≠ n.endpoint)) ∧
    (azure.compareAccountCredentials e2 n2 = true ↔
      (e2.cred.subscriptionId ≠ n2.cred.subscriptionId ∨
       e2.cred.clientId ≠ n2.cred.clientId ∨
       e2.cred.tenantId ≠ n2.cred.tenantId ∨
       e2.cred.clientKey ≠ n2.cred.clientKey ∨
       e2.region ≠ n2.region)) := by
  constructor <;>
    simp [aws.compareAccountCredentials, azure.compareAccountCredentials,
      or_assoc]

/-- C2 counterexample: the AWS plugin's `setAccountCredentials`, on a
failed secret fetch, returns NO account configuration at all (`nil`)
alongside the error — not a configuration with sentinel `"default"`
credential fields as the claim asserts for every provider plugin. -/
theorem c2_aws_returns_nil_counterexample :
    aws.setAccountCredentials false true "" some (fun _ => none) "us-east-1" "" =
      (none, some "error fetching Secret") := rfl

/-- C2 (amended): when credential resolution fails, the AWS plugin
returns no configuration together with the non-nil error, while the
Azure plugin returns a configuration whose four credential fields are
all the sentinel `"default"` together with the non-nil error. -/
theorem c2_resolution_failure_behavior (gA dA : Bool) (kA : String)
    (bA : String → Option String) (umA : String → Option AwsAccountCredential)
    (regionA endpointA : String)
    (gZ dZ : Bool) (kZ : Option String) (bZ : String → Option String)
    (umZ : String → Option AzureAccountCredential) (region0 : String) :
    (∀ e, aws.extractSecret gA dA kA bA umA = .error e →
      aws.setAccountCredentials gA dA kA bA umA regionA endpointA =
        (none, some e)) ∧
    (∀ e, (azure.extractSecret gZ dZ kZ bZ umZ).2 = some e →
      azure.setAccountCredentials gZ dZ kZ bZ umZ region0 =
        (⟨⟨AccountCredentialsDefault, AccountCredentialsDefault,
           AccountCredentialsDefault, AccountCredentialsDefault⟩,
          trimSpace region0⟩, some e)) := by
  constructor
  · intro e h
    simp [aws.setAccountCredentials, h]
  · intro e h
    simp [azure.setAccountCredentials, h]

/-- C2 witness: both branches of `c2_resolution_failure_behavior`
applied at a concrete failing secret fetch. -/
theorem c2_resolution_failure_behavior_witness :
    aws.setAccountCredentials false true "" some (fun _ => none) "r" "e" =
      (none, some "error fetching Secret") ∧
    azure.setAccountCredentials false true none some (fun _ => none) " eastus " =
      (⟨⟨AccountCredentialsDefault, AccountCredentialsDefault,
         AccountCredentialsDefault, AccountCredentialsDefault⟩,
        trimSpace " eastus "⟩, some "failed to get Secret object") :=
  ⟨(c2_resolution_failure_behavior false true "" some (fun _ => none) "r" "e"
      false true none some (fun _ => none) " eastus ").1
      "error fetching Secret" rfl,
   (c2_resolution_failure_behavior false true "" some (fun _ => none) "r" "e"
      false true none some (fun _ => none) " eastus ").2
      "failed to get Secret object" rfl⟩

/-- C3 counterexample: the AWS plugin's `extractSecret` accepts a
secret that decodes and unmarshals to a credential with EMPTY
`accessKeyId` and `accessKeySecret`, returning it with no error — the
AWS code performs no empty-field check, so the claim is false for the
AWS plugin. -/
theorem c3_aws_empty_fields_counterexample :
    aws.extractSecret true true "payload" some
        (fun _ => some ⟨"", "", "", "", ""⟩) =
      .ok ⟨"", "", "", "", ""⟩ := rfl

/-- C3 (amended): the Azure plugin's `extractSecret` returns a non-nil
error whenever the decoded credential has any empty required field
(subscriptionId, tenantId, clientId or clientKey); the AWS plugin's
`extractSecret` performs no such check and returns the decoded
credential with nil error whenever fetch, decode and unmarshal
succeed, even with empty required fields. -/
theorem c3_empty_field_check (bkey decoded : String)
    (bZ : String → Option String) (umZ : String → Option AzureAccountCredential)
    (cred : AzureAccountCredential)
    (kA decodedA : String) (bA : String → Option String)
    (umA : String → Option AwsAccountCredential) (credA : AwsAccountCredential) :
    (bZ bkey = some decoded → umZ decoded = some cred →
      (cred.subscriptionId = "" ∨ cred.tenantId = "" ∨
       cred.clientId = "" ∨ cred.clientKey = "") →
      (azure.extractSecret true true (some bkey) bZ umZ).2.isSome = true) ∧
    (bA kA = some decodedA → umA decodedA = some credA →
      aws.extractSecret true true kA bA umA = .ok credA) := by
  constructor
  · intro hb hu hempty
    simp only [azure.extractSecret, Bool.not_true, Bool.false_eq_true,
      if_false, hb, hu]
    rcases hempty with h | h | h | h <;> simp [h]
  · intro hb hu
    simp [aws.extractSecret, hb, hu]

/-- C3 witness: both branches of `c3_empty_field_check` at a concrete
decoded credential with an empty required field. -/
theorem c3_empty_field_check_witness :
    (azure.extractSecret true true (some "k")
        (fun _ => some "d") (fun _ => some ⟨"", "t", "c", "ck"⟩)).2.isSome = true ∧
    aws.extractSecret true true "k" (fun _ => some "d")
        (fun _ => some ⟨"", "", "", "", ""⟩) = .ok ⟨"", "", "", "", ""⟩ :=
  ⟨(c3_empty_field_check "k" "d" (fun _ => some "d")
      (fun _ => some ⟨"", "t", "c", "ck"⟩) ⟨"", "t", "c", "ck"⟩
      "k" "d" (fun _ => some "d") (fun _ => some ⟨"", "", "", "", ""⟩)
      ⟨"", "", "", "", ""⟩).1 rfl rfl (.inl rfl),
   (c3_empty_field_check "k" "d" (fun _ => some "d")
      (fun _ => some ⟨"", "t", "c", "ck"⟩) ⟨"", "t", "c", "ck"⟩
      "k" "d" (fun _ => some "d") (fun _ => some ⟨"", "", "", "", ""⟩)
      ⟨"", "", "", "", ""⟩).2 rfl rfl⟩

/-- C4: `DoResourceInventory` on a failed vnet fetch returns that error
with the cached snapshot untouched; on a failed virtual-machine fetch
likewise; and only when both fetches succeed does it swap in the
freshly built snapshot. -/
theorem c4_poll_failure_preserves_snapshot
    (getVpcsR : Except String (List azure.VirtualNetwork))
    (fetch : String → Except String (List azure.virtualMachineTable))
    (buildQuery : List String → List String → List String → Except Unit String)
    (subscriptionID tenantID region : String)
    (computeFilters : List (String × List String))
    (cache : Option azure.computeResourcesCacheSnapshot) (e : String) :
    (getVpcsR = .error e →
      azure.DoResourceInventory getVpcsR fetch buildQuery subscriptionID
        tenantID region computeFilters cache = (cache, some e)) ∧
    (∀ vnets, getVpcsR = .ok vnets →
      azure.getVirtualMachines fetch buildQuery subscriptionID tenantID region
        computeFilters = .error e →
      azure.DoResourceInventory getVpcsR fetch buildQuery subscriptionID
        tenantID region computeFilters cache = (cache, some e)) ∧
    (∀ vnets vms, getVpcsR = .ok vnets →
      azure.getVirtualMachines fetch buildQuery subscriptionID tenantID region
        computeFilters = .ok vms →
      azure.DoResourceInventory getVpcsR fetch buildQuery subscriptionID
        tenantID region computeFilters cache =
        (some (azure.buildInventorySnapshot vnets vms), none)) := by
  refine ⟨?_, ?_, ?_⟩
  · intro h
    simp [azure.DoResourceInventory, h]
  · intro vnets h hv
    simp [azure.DoResourceInventory, h, hv]
  · intro vnets vms h hv
    simp [azure.DoResourceInventory, h, hv]

/-- C4 witness: the three branches of
`c4_poll_failure_preserves_snapshot` at concrete polls — a failed vnet
fetch, a failed vm fetch (one match-everything selector installed),
and a fully successful poll. -/
theorem c4_poll_failure_preserves_snapshot_witness :
    azure.DoResourceInventory (.error "vpc fetch failed") (fun _ => .ok [])
        azure.matchEverythingQuery "s" "t" "r" [] none =
      (none, some "vpc fetch failed") ∧
    azure.DoResourceInventory (.ok []) (fun _ => .error "vm fetch failed")
        azure.matchEverythingQuery "s" "t" "r" [("ns/sel", [])] none =
      (none, some "vm fetch failed") ∧
    azure.DoResourceInventory (.ok []) (fun _ => .ok [])
        azure.matchEverythingQuery "s" "t" "r" [] none =
      (some (azure.buildInventorySnapshot [] []), none) :=
  ⟨(c4_poll_failure_preserves_snapshot (.error "vpc fetch failed")
      (fun _ => .ok []) azure.matchEverythingQuery "s" "t" "r" [] none
      "vpc fetch failed").1 rfl,
   (c4_poll_failure_preserves_snapshot (.ok [])
      (fun _ => .error "vm fetch failed") azure.matchEverythingQuery "s" "t" "r"
      [("ns/sel", [])] none "vm fetch failed").2.1 [] rfl rfl,
   (c4_poll_failure_preserves_snapshot (.ok []) (fun _ => .ok [])
      azure.matchEverythingQuery "s" "t" "r" [] none "").2.2 [] [] rfl rfl⟩

/-- Helper: once the selector walk meets any selector with an empty
filter list, it yields exactly the single match-everything query,
whatever was accumulated and whatever else is installed. -/
theorem filtersLoop_empty_entry_yields_match_all
    (buildQuery : List String → List String → List String → Except Unit String)
    (s t r q : String) (hq : buildQuery [s] [t] [r] = .ok q) :
    ∀ (l : List (String × List String)) (acc : List String),
      (∃ p ∈ l, p.2 = ([] : List String)) →
      azure.getComputeResourceFiltersLoop buildQuery s t r l acc = some [q] := by
  intro l
  induction l with
  | nil =>
    intro acc h
    obtain ⟨p, hp, _⟩ := h
    exact absurd hp (List.not_mem_nil p)
  | cons hd tl ih =>
    obtain ⟨kd, fs⟩ := hd
    intro acc h
    by_cases hf : fs.isEmpty
    · simp [azure.getComputeResourceFiltersLoop, hf, hq]
    · obtain ⟨p, hp, hpe⟩ := h
      rcases List.mem_cons.mp hp with heq | hmem
      · subst heq
        have hfs : fs = [] := hpe
        rw [hfs] at hf
        simp at hf
      · simp only [azure.getComputeResourceFiltersLoop, hf, Bool.false_eq_true,
          if_false]
        exact ih (acc ++ fs) ⟨p, hmem, hpe⟩

/-- C5: with no resource filter installed, `getVirtualMachines`
returns empty for EVERY fetch function — in particular for one that
always fails, so no cloud query can have been consulted — and whenever
some installed selector carries an empty filter list, the compiled
query set is exactly the one match-everything query the builder
produces from the account's subscription, tenant and region, no matter
what other selectors are installed. -/
theorem c5_nil_and_empty_filter_semantics
    (fetch : String → Except String (List azure.virtualMachineTable))
    (buildQuery : List String → List String → List String → Except Unit String)
    (s t r q : String) :
    (azure.getVirtualMachines fetch buildQuery s t r [] = .ok []) ∧
    (buildQuery [s] [t] [r] = .ok q →
      ∀ computeFilters : List (String × List String),
        (∃ p ∈ computeFilters, p.2 = ([] : List String)) →
        azure.getComputeResourceFilters buildQuery s t r computeFilters =
          some [q]) := by
  constructor
  · rfl
  · intro hq l hmem
    cases l with
    | nil =>
      obtain ⟨p, hp, _⟩ := hmem
      exact absurd hp (List.not_mem_nil p)
    | cons hd tl =>
      simp only [azure.getComputeResourceFilters, List.isEmpty_cons,
        Bool.false_eq_true, if_false]
      exact filtersLoop_empty_entry_yields_match_all buildQuery s t r q hq
        (hd :: tl) [] hmem

/-- C5 witness: no filters installed (always-failing fetch) returns
empty, and a two-selector map where one selector has an empty filter
list compiles to exactly the spec-modelled match-everything query. -/
theorem c5_nil_and_empty_filter_semantics_witness :
    azure.getVirtualMachines (fun _ => .error "no cloud")
        azure.matchEverythingQuery "s" "t" "r" [] = .ok [] ∧
    azure.getComputeResourceFilters azure.matchEverythingQuery "s" "t" "r"
        [("nsA/selA", ["filterA"]), ("nsB/selB", [])] =
      some [azure.mkMatchEverythingQuery ["s"] ["t"] ["r"]] :=
  ⟨(c5_nil_and_empty_filter_semantics (fun _ => .error "no cloud")
      azure.matchEverythingQuery "s" "t" "r"
      (azure.mkMatchEverythingQuery ["s"] ["t"] ["r"])).1,
   (c5_nil_and_empty_filter_semantics (fun _ => .error "no cloud")
      azure.matchEverythingQuery "s" "t" "r"
      (azure.mkMatchEverythingQuery ["s"] ["t"] ["r"])).2 rfl
      [("nsA/selA", ["filterA"]), ("nsB/selB", [])]
      ⟨("nsB/selB", []), by simp, rfl⟩⟩

/-- C6: `AddCloudAccount` followed by `RemoveCloudAccount` on the same
key leaves no registry entry for that key — in every branch of the add
(create, create-failure, in-place update) — and `RemoveCloudAccount`
on an unregistered key returns the registry unchanged (a silent no-op;
the function is total, so it cannot panic). -/
theorem c6_add_then_remove_leaves_no_entry {Config Credentials : Type}
    (newCfg : Credentials → Except String Config)
    (updCfg : Config → Credentials → Config × Option String)
    (reg : internal.Registry Config) (k : internal.NamespacedName)
    (credentials : Credentials) :
    internal.RemoveCloudAccount
      (internal.AddCloudAccount newCfg updCfg reg k credentials).1 k k = none ∧
    (reg k = none → internal.RemoveCloudAccount reg k = reg) := by
  constructor
  · cases hk : reg k with
    | some cfg =>
      simp [internal.AddCloudAccount, internal.RemoveCloudAccount, hk]
    | none =>
      cases hnc : newCfg credentials with
      | error e =>
        simp [internal.AddCloudAccount, internal.RemoveCloudAccount, hk, hnc]
      | ok cfg =>
        simp [internal.AddCloudAccount, internal.RemoveCloudAccount, hk, hnc]
  · intro h
    simp [internal.RemoveCloudAccount, h]

/-- C6 witness: both parts of `c6_add_then_remove_leaves_no_entry` at
a concrete one-entry registry over string configs. -/
theorem c6_add_then_remove_leaves_no_entry_witness :
    internal.RemoveCloudAccount
      (internal.AddCloudAccount (fun c => .ok c) (fun _ c => (c, none))
        (fun _ => none : internal.Registry String) ⟨"ns01", "account01"⟩
        "creds").1 ⟨"ns01", "account01"⟩ ⟨"ns01", "account01"⟩ = none ∧
    ((fun _ => none : internal.Registry String) ⟨"ns01", "account01"⟩ = none →
      internal.RemoveCloudAccount (fun _ => none : internal.Registry String)
        ⟨"ns01", "account01"⟩ = (fun _ => none : internal.Registry String)) :=
  ⟨(c6_add_then_remove_leaves_no_entry (fun c => .ok c) (fun _ c => (c, none))
      (fun _ => none) ⟨"ns01", "account01"⟩ "creds").1,
   fun _ =>
    (c6_add_then_remove_leaves_no_entry (fun c => .ok c) (fun _ c => (c, none))
      (fun _ => none : internal.Registry String) ⟨"ns01", "account01"⟩
      "creds").2 rfl⟩

/-- C7: when the key is already registered, `AddCloudAccount` forwards
the call as an in-place update of the existing configuration: the key
still maps to a (the updated) configuration, the update's error is
returned, and no other registry entry is touched. -/
theorem c7_add_existing_updates_in_place {Config Credentials : Type}
    (newCfg : Credentials → Except String Config)
    (updCfg : Config → Credentials → Config × Option String)
    (reg : internal.Registry Config) (k : internal.NamespacedName)
    (credentials : Credentials) (cfg : Config) (h : reg k = some cfg) :
    (internal.AddCloudAccount newCfg updCfg reg k credentials).1 k =
      some (updCfg cfg credentials).1 ∧
    (internal.AddCloudAccount newCfg updCfg reg k credentials).2 =
      (updCfg cfg credentials).2 ∧
    (∀ j, j ≠ k →
      (internal.AddCloudAccount newCfg updCfg reg k credentials).1 j =
        reg j) := by
  refine ⟨?_, ?_, ?_⟩
  · simp [internal.AddCloudAccount, h]
  · simp [internal.AddCloudAccount, h]
  · intro j hj
    simp [internal.AddCloudAccount, h, hj]

/-- C7 witness: `c7_add_existing_updates_in_place` at a concrete
registry holding the key. -/
theorem c7_add_existing_updates_in_place_witness :
    (internal.AddCloudAccount (fun c => .ok c)
      (fun old c => ((old ++ c : String), (none : Option String)))
      (fun j => if j = ⟨"ns01", "account01"⟩ then some "cfg0" else none)
      ⟨"ns01", "account01"⟩ "new").1 ⟨"ns01", "account01"⟩ =
      some (("cfg0" ++ "new" : String), (none : Option String)).1 :=
  (c7_add_existing_updates_in_place (fun c => .ok c)
    (fun old c => (old ++ c, none))
    (fun j => if j = ⟨"ns01", "account01"⟩ then some "cfg0" else none)
    ⟨"ns01", "account01"⟩ "new" "cfg0" (by simp)).1

/-- C8: for every configured controller prefix string and resource,
`GetCloudName` is exactly the prefix, then `-ag-` (membership-only)
or `-at-` (applied-to), then the lowercased resource name. -/
theorem c8_cloud_name_derivation (pfx : String)
    (c : cloudresource.CloudResourceID) :
    c.GetCloudName pfx true = pfx ++ "-ag-" ++ c.Name.toLower ∧
    c.GetCloudName pfx false = pfx ++ "-at-" ++ c.Name.toLower := by
  constructor <;>
    simp [cloudresource.CloudResourceID.GetCloudName,
      cloudresource.GetControllerAddressGroupPfx,
      cloudresource.GetControllerAppliedToPfx, String.append_assoc]

/-- Helper: a rule list containing a rule with no policy
namespaced-name has no description list. -/
theorem ruleDescriptions_none_of_empty_name :
    ∀ rules : List cloudresource.CloudRule,
      (∃ r ∈ rules, r.NpNamespacedName = "") →
      sync.ruleDescriptions rules = none := by
  intro rules
  induction rules with
  | nil =>
    intro h
    obtain ⟨r, hr, _⟩ := h
    exact absurd hr (List.not_mem_nil r)
  | cons hd tl ih =>
    intro h
    obtain ⟨r, hr, hre⟩ := h
    rcases List.mem_cons.mp hr with heq | hmem
    · subst heq
      simp [sync.ruleDescriptions, sync.ruleDescription, hre]
    · simp only [sync.ruleDescriptions]
      cases sync.ruleDescription hd with
      | none => rfl
      | some d => simp [ih ⟨r, hmem, hre⟩]

/-- Helper: a rule list in which every rule carries a policy
namespaced-name has a description list. -/
theorem ruleDescriptions_some_of_named :
    ∀ rules : List cloudresource.CloudRule,
      (∀ r ∈ rules, r.NpNamespacedName ≠ "") →
      (sync.ruleDescriptions rules).isSome = true := by
  intro rules
  induction rules with
  | nil => intro _; rfl
  | cons hd tl ih =>
    intro h
    have hhd : hd.NpNamespacedName ≠ "" := h hd (List.mem_cons_self hd tl)
    have htl := ih fun r hr => h r (List.mem_cons_of_mem hd hr)
    simp only [sync.ruleDescriptions, sync.ruleDescription, hhd, if_false]
    cases htls : sync.ruleDescriptions tl with
    | none => rw [htls] at htl; simp at htl
    | some ds => simp [htls]

/-- C9: `UpdateSecurityGroupRules` on a rule set containing a rule
with no policy namespaced-name returns a non-nil error and leaves the
pushed cloud rule set exactly as it was; a call whose rules all carry
a policy namespaced-name succeeds, so the failure affects only the
offending call. -/
theorem c9_reject_rule_without_policy_name (cloudRules : List String)
    (allRules : List cloudresource.CloudRule) :
    ((∃ r ∈ allRules, r.NpNamespacedName = "") →
      sync.UpdateSecurityGroupRules cloudRules allRules =
        (cloudRules, some "rule without policy namespaced-name")) ∧
    ((∀ r ∈ allRules, r.NpNamespacedName ≠ "") →
      (sync.UpdateSecurityGroupRules cloudRules allRules).2 = none) := by
  constructor
  · intro h
    simp [sync.UpdateSecurityGroupRules,
      ruleDescriptions_none_of_empty_name allRules h]
  · intro h
    have := ruleDescriptions_some_of_named allRules h
    cases hds : sync.ruleDescriptions allRules with
    | none => rw [hds] at this; simp at this
    | some ds => simp [sync.UpdateSecurityGroupRules, hds]

/-- C9 witness: both branches of `c9_reject_rule_without_policy_name`,
at a rule lacking its policy namespaced-name and at one carrying it. -/
theorem c9_reject_rule_without_policy_name_witness :
    sync.UpdateSecurityGroupRules ["existing-rule"]
        [⟨"", .ingress (some 22) ["10.0.0.0/24"] [] (some 6) [], "", "at-grp"⟩] =
      (["existing-rule"], some "rule without policy namespaced-name") ∧
    (sync.UpdateSecurityGroupRules ["existing-rule"]
        [⟨"", .ingress (some 22) ["10.0.0.0/24"] [] (some 6) [],
          "test-anp-ns/test-anp", "at-grp"⟩]).2 = none :=
  ⟨(c9_reject_rule_without_policy_name ["existing-rule"]
      [⟨"", .ingress (some 22) ["10.0.0.0/24"] [] (some 6) [], "", "at-grp"⟩]).1
      ⟨⟨"", .ingress (some 22) ["10.0.0.0/24"] [] (some 6) [], "", "at-grp"⟩,
        List.mem_singleton.mpr rfl, rfl⟩,
   (c9_reject_rule_without_policy_name ["existing-rule"]
      [⟨"", .ingress (some 22) ["10.0.0.0/24"] [] (some 6) [],
        "test-anp-ns/test-anp", "at-grp"⟩]).2
      (by intro r hr; rw [List.mem_singleton.mp hr]; simp)⟩

/-- C10: `GetHash` hashes only the JSON serialization of the `Rule`
and `AppliedToGrp` fields (the `Hash` and `NpNamespacedName` fields
carry the tag excluding them from serialization), so for every hash
function it is invariant under changes to `Hash` and
`NpNamespacedName`. -/
theorem c10_hash_depends_only_on_rule_and_group (sha1hex : String → String)
    (c1 c2 : cloudresource.CloudRule) (hr : c1.Rule = c2.Rule)
    (ha : c1.AppliedToGrp = c2.AppliedToGrp) :
    cloudresource.CloudRule.GetHash sha1hex c1 =
      cloudresource.CloudRule.GetHash sha1hex c2 := by
  simp [cloudresource.CloudRule.GetHash, cloudresource.marshalCloudRule, hr, ha]

/-- C10 witness: two rules agreeing on `Rule` and `AppliedToGrp` but
differing in `Hash` and `NpNamespacedName` hash identically. -/
theorem c10_hash_depends_only_on_rule_and_group_witness :
    cloudresource.CloudRule.GetHash id
        ⟨"hash1", .ingress (some 22) [] [] (some 6) [], "ns1/np1", "grp"⟩ =
      cloudresource.CloudRule.GetHash id
        ⟨"hash2", .ingress (some 22) [] [] (some 6) [], "ns2/np2", "grp"⟩ :=
  c10_hash_depends_only_on_rule_and_group id
    ⟨"hash1", .ingress (some 22) [] [] (some 6) [], "ns1/np1", "grp"⟩
    ⟨"hash2", .ingress (some 22) [] [] (some 6) [], "ns2/np2", "grp"⟩ rfl rfl

end Nephe
